import Mathlib

set_option autoImplicit false

/-!
Verification of the `rate-limit-redis` store (a Redis-backed counter store
for the `express-rate-limit` middleware).

The development shallowly embeds, from the repository's sources:

* the Lua `increment` and `get` scripts of `source/scripts.ts`, as pure
  functions over the state of the single Redis key they touch (the scripts
  only ever address `KEYS[1]`), built from models of the Redis primitives
  they call (`PTTL`, `SET ... PX`, `INCR`, `PEXPIRE`, `GET`, `DECR`, `DEL`);
* `toInt` and `parseScriptResponse` from `source/lib.ts`, including the
  JavaScript `Number.parseInt` coercion and the `results[0] === false`
  special case (a `none` of `Option Int` stands for a JavaScript `NaN`,
  and for an `Invalid Date` in the `resetTime` field);
* `retryableIncrement` from `source/lib.ts`, parametrised by the outcomes
  the transport gives to the first and second `EVALSHA` attempt;
* the `RedisStore` constructor's option validation from `source/lib.ts`;
* the façade operations `increment`, `get`, `decrement`, `resetKey`.
-/

namespace RateLimitRedis

/-- The scalar data values a Redis reply can carry into the JavaScript
client, per `source/types.ts` (`type Data = boolean | number | string`). -/
inductive Data where
  | bool (b : Bool)
  | num (n : Int)
  | str (s : String)
deriving DecidableEq, Repr

/-- A Redis reply: a scalar or an array of scalars (`RedisReply` in
`source/types.ts`). -/
inductive RedisReply where
  | scalar (d : Data)
  | arr (xs : List Data)
deriving DecidableEq, Repr

/-- The state of one Redis key: an integer value and an optional remaining
time-to-live in milliseconds (`none` means the key has no expiry). -/
structure Entry where
  value : Int
  expiry : Option Int
deriving DecidableEq, Repr

/-- The state of one key in the store: `none` when the key is absent. -/
abbrev RedisKeyState := Option Entry

/-- Redis `PTTL`: `-2` when the key does not exist, `-1` when it exists
without an expiry, otherwise the remaining time-to-live. -/
def pttl : RedisKeyState → Int
  | none => -2
  | some e =>
    match e.expiry with
    | none => -1
    | some t => t

/-- Redis `INCR`: increments the value (creating the key at `1` with no
expiry when absent) and returns the new value; the expiry is untouched. -/
def redisIncr : RedisKeyState → RedisKeyState × Int
  | none => (some ⟨1, none⟩, 1)
  | some e => (some ⟨e.value + 1, e.expiry⟩, e.value + 1)

/-- Redis `DECR`: decrements the value (creating the key at `-1` with no
expiry when absent) and returns the new value; the expiry is untouched. -/
def redisDecr : RedisKeyState → RedisKeyState × Int
  | none => (some ⟨-1, none⟩, -1)
  | some e => (some ⟨e.value - 1, e.expiry⟩, e.value - 1)

/-- Redis `SET key v PX px`: overwrites the key with value `v` and expiry
`px`. (Redis rejects a non-positive `px`; the scripts only reach this call
with `px = windowMs`, and the theorems that depend on the expiry assume
`0 < windowMs`.) -/
def redisSet (v px : Int) : RedisKeyState → RedisKeyState :=
  fun _ => some ⟨v, some px⟩

/-- Redis `PEXPIRE key px`: sets the remaining time-to-live of an existing
key; a non-positive `px` deletes the key, and an absent key is untouched. -/
def redisPexpire (px : Int) : RedisKeyState → RedisKeyState
  | none => none
  | some e => if px ≤ 0 then none else some ⟨e.value, some px⟩

/-- Redis `GET`: the current value of the key, `none` when absent. -/
def redisGet : RedisKeyState → Option Int
  | none => none
  | some e => some e.value

/-- Redis `DEL`: removes the key; deleting an absent key is not an error. -/
def redisDel : RedisKeyState → RedisKeyState :=
  fun _ => none

/-- The Lua `increment` script of `source/scripts.ts`, line by line:

    local windowMs = tonumber(ARGV[2])
    local resetOnChange = ARGV[1] == "1"
    local timeToExpire = redis.call("PTTL", KEYS[1])
    if timeToExpire <= 0 then
      redis.call("SET", KEYS[1], 1, "PX", windowMs)
      return { 1, windowMs }
    end
    local totalHits = redis.call("INCR", KEYS[1])
    if resetOnChange then
      redis.call("PEXPIRE", KEYS[1], windowMs)
      timeToExpire = windowMs
    end
    return { totalHits, timeToExpire }

The result is the new state of `KEYS[1]` paired with the reply array. -/
def scriptIncrement (resetOnChange : Bool) (windowMs : Int) (s : RedisKeyState) :
    RedisKeyState × List Data :=
  let timeToExpire := pttl s
  if timeToExpire ≤ 0 then
    (redisSet 1 windowMs s, [Data.num 1, Data.num windowMs])
  else
    let incr := redisIncr s
    if resetOnChange then
      (redisPexpire windowMs incr.1, [Data.num incr.2, Data.num windowMs])
    else
      (incr.1, [Data.num incr.2, Data.num timeToExpire])

/-- The Lua `get` script of `source/scripts.ts`:

    local totalHits = redis.call("GET", KEYS[1])
    local timeToExpire = redis.call("PTTL", KEYS[1])
    return { totalHits, timeToExpire }

`GET` hands Lua the stored value as a string, or `false` when the key is
absent; `GET` and `PTTL` are read-only, so the state is unchanged. -/
def scriptGet (s : RedisKeyState) : RedisKeyState × List Data :=
  let totalHits : Data :=
    match redisGet s with
    | none => Data.bool false
    | some n => Data.str (toString n)
  (s, [totalHits, Data.num (pttl s)])

/-- JavaScript `Number.parseInt(s, 10)`: skip leading whitespace, read an
optional sign and then the longest run of decimal digits; `NaN` (here
`none`) when no digit is found. -/
def jsParseInt10 (s : String) : Option Int :=
  let cs := s.toList.dropWhile Char.isWhitespace
  let signAndRest : Int × List Char :=
    match cs with
    | '-' :: r => (-1, r)
    | '+' :: r => (1, r)
    | r => (1, r)
  let ds := signAndRest.2.takeWhile Char.isDigit
  if ds.isEmpty then none
  else some (signAndRest.1 * Int.ofNat (ds.foldl (fun a c => a * 10 + (c.toNat - 48)) 0))

/-- JavaScript `String(x)` on the scalar data values. -/
def jsToString : Data → String
  | .bool true => "true"
  | .bool false => "false"
  | .num n => toString n
  | .str s => s

/-- `toInt` from `source/lib.ts`:

    if (typeof input === 'number') return input
    return Number.parseInt((input ?? '').toString(), 10)

`none` input stands for JavaScript `undefined`; a `none` result is `NaN`. -/
def toInt (input : Option Data) : Option Int :=
  match input with
  | some (.num n) => some n
  | some d => jsParseInt10 (jsToString d)
  | none => jsParseInt10 ""

/-- The typed errors `parseScriptResponse` can throw: a `TypeError` or a
plain `Error`, with their messages. -/
inductive ScriptResponseError where
  | typeError (message : String)
  | jsError (message : String)
deriving DecidableEq, Repr

/-- The parsed result (`ClientRateLimitInfo`): `totalHits` is a JavaScript
number (`none` = `NaN`) and `resetTime` a `Date` (`none` = `Invalid Date`),
measured here as milliseconds since the epoch. -/
structure ClientRateLimitInfo where
  totalHits : Option Int
  resetTime : Option Int
deriving DecidableEq, Repr

deriving instance DecidableEq for Except

/-- `parseScriptResponse` from `source/lib.ts`:

    if (!Array.isArray(results)) throw new TypeError(...)
    if (results.length !== 2) throw new Error(...)
    const totalHits = results[0] === false ? 0 : toInt(results[0])
    const timeToExpire = toInt(results[1])
    const resetTime = new Date(Date.now() + timeToExpire)
    return { totalHits, resetTime }

`now` is the value of `Date.now()` at the moment of parsing. -/
def parseScriptResponse (now : Int) (results : RedisReply) :
    Except ScriptResponseError ClientRateLimitInfo :=
  match results with
  | .scalar _ => .error (.typeError "Expected result to be array of values")
  | .arr xs =>
    match xs with
    | [r0, r1] =>
      let totalHits := if r0 = Data.bool false then some (0 : Int) else toInt (some r0)
      let timeToExpire := toInt (some r1)
      .ok ⟨totalHits, timeToExpire.map (fun t => now + t)⟩
    | _ => .error (.jsError ("Expected 2 replies, got " ++ toString xs.length))

/-- `prefixKey` from `source/lib.ts`: plain string concatenation of the
configured key text and the client key. -/
def pfxKey (pfx key : String) : String :=
  pfx ++ key

/-- `increment` from `source/lib.ts`, at the level of one key's state:
run the increment script, then parse its reply with `parseScriptResponse`. -/
def storeIncrement (resetOnChange : Bool) (windowMs now : Int) (s : RedisKeyState) :
    RedisKeyState × Except ScriptResponseError ClientRateLimitInfo :=
  let step := scriptIncrement resetOnChange windowMs s
  (step.1, parseScriptResponse now (.arr step.2))

/-- `get` from `source/lib.ts`, at the level of one key's state: run the
read-only script, then parse its reply with the same `parseScriptResponse`
used by `increment`. -/
def storeGet (now : Int) (s : RedisKeyState) :
    RedisKeyState × Except ScriptResponseError ClientRateLimitInfo :=
  let step := scriptGet s
  (step.1, parseScriptResponse now (.arr step.2))

/-- `decrement` from `source/lib.ts`: issues the single raw command
`DECR <prefixed key>`; the pair is the command trace and the key's new
state. -/
def storeDecrement (pfx key : String) (s : RedisKeyState) :
    List (List String) × RedisKeyState :=
  ([["DECR", pfxKey pfx key]], (redisDecr s).1)

/-- `resetKey` from `source/lib.ts`: issues the single raw command
`DEL <prefixed key>`; the pair is the command trace and the key's new
state. -/
def storeResetKey (pfx key : String) (s : RedisKeyState) :
    List (List String) × RedisKeyState :=
  ([["DEL", pfxKey pfx key]], redisDel s)

/-- Outcome of one `EVALSHA` round trip as the store sees it: a reply, or
a rejected promise carrying an error message. -/
inductive EvalOutcome where
  | ok (reply : RedisReply)
  | err (message : String)
deriving DecidableEq, Repr

/-- What a run of `retryableIncrement` did: its final outcome (returned
reply or propagated error), how many `EVALSHA` commands it sent, and how
many `SCRIPT LOAD` re-uploads it started. -/
structure RetryTrace where
  result : EvalOutcome
  evalshaCalls : Nat
  scriptLoads : Nat
deriving DecidableEq, Repr

/-- `retryableIncrement` from `source/lib.ts`:

    try {
      const result = await evalCommand()
      return result
    } catch {
      // TODO: distinguish different error types
      this.incrementScriptSha = this.loadIncrementScript(key)
      return evalCommand()
    }

`firstAttempt` and `secondAttempt` are the transport's outcomes for the
first and (if reached) second `EVALSHA` call; a failure of the re-upload
itself surfaces as the second attempt's error, since the retried
`evalCommand` awaits the refreshed script-SHA promise. -/
def retryableIncrement (firstAttempt secondAttempt : EvalOutcome) : RetryTrace :=
  match firstAttempt with
  | .ok r => ⟨.ok r, 1, 0⟩
  | .err _ => ⟨secondAttempt, 2, 1⟩

/-- The details record taken by a cluster-aware transport function
(`SendCommandClusterDetails` in `source/types.ts`). -/
structure SendCommandClusterDetails where
  key : Option String
  isReadOnly : Bool
  command : List String

/-- A plain transport function: raw command in, reply out. -/
def SendFn : Type := List String → RedisReply

/-- A cluster-aware transport function: command plus routing details in,
reply out. -/
def SendClusterFn : Type := SendCommandClusterDetails → RedisReply

/-- The fields an options object may carry, presence modelled by
`Option` (the constructor tests presence with the `in` operator). -/
structure OptionsObj where
  sendCommand : Option SendFn
  sendCommandCluster : Option SendClusterFn
  keyText : Option String
  resetExpiryOnChange : Option Bool

/-- The value passed to the constructor: either not an object at all, or
an options object. -/
inductive OptionsValue where
  | notAnObject
  | object (o : OptionsObj)

/-- The errors the constructor throws. -/
inductive ConstructorError where
  | optionsObjectRequired
  | sendCommandXorRequired
deriving DecidableEq, Repr

/-- The store configuration produced by a successful construction: the
(possibly wrapped) transport every later operation goes through, the key
text, and the slide-expiry flag. -/
structure StoreConfig where
  sendCommand : SendClusterFn
  keyText : String
  resetExpiryOnChange : Bool

/-- The `RedisStore` constructor of `source/lib.ts`: rejects a non-object,
requires exactly one of `sendCommand` / `sendCommandCluster`, wraps a plain
`sendCommand` into the cluster shape (forwarding only the raw command), and
defaults the key text to `"rl:"` and the slide-expiry flag to `false`. -/
def redisStoreConstructor : OptionsValue → Except ConstructorError StoreConfig
  | .notAnObject => .error .optionsObjectRequired
  | .object o =>
    match o.sendCommand, o.sendCommandCluster with
    | some f, none =>
      .ok ⟨fun details => f details.command, o.keyText.getD "rl:",
        o.resetExpiryOnChange.getD false⟩
    | none, some g =>
      .ok ⟨g, o.keyText.getD "rl:", o.resetExpiryOnChange.getD false⟩
    | _, _ => .error .sendCommandXorRequired

/-! ### Helper lemmas -/

/-- Parsing a reply of two numbers succeeds with those numbers, the second
offset by the current time. -/
theorem parse_two_nums (now a b : Int) :
    parseScriptResponse now (.arr [Data.num a, Data.num b]) =
      Except.ok ⟨some a, some (now + b)⟩ := by
  simp [parseScriptResponse, toInt]

/-- Parsing a reply whose first element is a string parses the string as a
base-10 integer. -/
theorem parse_str_num (now : Int) (s : String) (b : Int) :
    parseScriptResponse now (.arr [Data.str s, Data.num b]) =
      Except.ok ⟨jsParseInt10 s, some (now + b)⟩ := by
  simp [parseScriptResponse, toInt, jsToString]

/-! ### Claim theorems -/

/-- C1: when the prefixed key's remaining time-to-live is non-positive
(absent or lapsed), the increment script sets the stored value to 1 with
time-to-live `windowMs` and increment returns `totalHits = 1` with
`resetTime = now + windowMs`; when the time-to-live is live (positive), the
script increments the stored value by 1 and increment returns the new value
paired with the existing remaining time-to-live (or the full `windowMs`
when the slide-expiry flag is set). -/
theorem increment_script_window_semantics (flag : Bool) (w now : Int)
    (s : RedisKeyState) (hw : 0 < w) :
    (pttl s ≤ 0 →
      scriptIncrement flag w s = (some ⟨1, some w⟩, [Data.num 1, Data.num w]) ∧
      (storeIncrement flag w now s).2 = Except.ok ⟨some 1, some (now + w)⟩) ∧
    (0 < pttl s →
      ∃ e, s = some e ∧
        scriptIncrement flag w s =
          (some ⟨e.value + 1, if flag then some w else e.expiry⟩,
            [Data.num (e.value + 1), Data.num (if flag then w else pttl s)]) ∧
        (storeIncrement flag w now s).2 =
          Except.ok ⟨some (e.value + 1), some (now + if flag then w else pttl s)⟩) := by
  constructor
  · intro h
    constructor
    · simp [scriptIncrement, h, redisSet]
    · simp [storeIncrement, scriptIncrement, h, redisSet, parse_two_nums]
  · intro h
    have hnot : ¬ pttl s ≤ 0 := not_le.mpr h
    cases s with
    | none => simp [pttl] at h
    | some e =>
      have hwnot : ¬ w ≤ 0 := not_le.mpr hw
      cases flag with
      | false =>
        exact ⟨e, rfl,
          by simp [scriptIncrement, redisIncr, hnot],
          by simp [storeIncrement, scriptIncrement, redisIncr, hnot, parse_two_nums]⟩
      | true =>
        exact ⟨e, rfl,
          by simp [scriptIncrement, redisIncr, redisPexpire, hnot, hwnot],
          by simp [storeIncrement, scriptIncrement, redisIncr, redisPexpire,
            hnot, hwnot, parse_two_nums]⟩

/-- Witness for C1: concrete first-ever increment with `windowMs = 10`. -/
theorem increment_script_window_semantics_witness :
    scriptIncrement false 10 none = (some ⟨1, some 10⟩, [Data.num 1, Data.num 10]) ∧
    (storeIncrement false 10 0 none).2 = Except.ok ⟨some 1, some 10⟩ := by
  have h := (increment_script_window_semantics false 10 0 none (by decide)).1 (by decide)
  simpa using h

/-- C2: a key that still exists but whose remaining time-to-live reads
exactly 0 is treated as lapsed: the next increment returns `totalHits = 1`
(not the prior count plus 1), and the key is set to value 1 with
time-to-live equal to the full window duration. -/
theorem zero_ttl_starts_fresh_window (flag : Bool) (w now v : Int) :
    scriptIncrement flag w (some ⟨v, some 0⟩) =
      (some ⟨1, some w⟩, [Data.num 1, Data.num w]) ∧
    (storeIncrement flag w now (some ⟨v, some 0⟩)).2 =
      Except.ok ⟨some 1, some (now + w)⟩ := by
  constructor
  · simp [scriptIncrement, pttl, redisSet]
  · simp [storeIncrement, scriptIncrement, pttl, redisSet, parse_two_nums]

/-- C3 counterexample: a first `EVALSHA` failure whose message does not
signal a missing script handle (here a connection reset) does not propagate
to the caller: `retryableIncrement` still re-uploads the script and retries
once, returning the retry's successful reply. -/
theorem retry_not_limited_to_noscript :
    retryableIncrement (.err "ECONNRESET") (.ok (.arr [Data.num 2, Data.num 500])) =
      ⟨.ok (.arr [Data.num 2, Data.num 500]), 2, 1⟩ ∧
    ("NOSCRIPT".toList.isPrefixOf "ECONNRESET".toList) = false := by
  exact ⟨rfl, by decide⟩

/-- C3 (amended): `retryableIncrement` performs exactly one automatic retry
of the `EVALSHA` call on any failure of the first attempt (re-uploading the
script before the retry), and no retry after a success; the second
attempt's outcome — success or failure — is returned unchanged, so a
failing retry propagates and no default result is substituted. -/
theorem retry_once_on_any_failure (r : RedisReply) (m : String)
    (second : EvalOutcome) :
    retryableIncrement (.ok r) second = ⟨.ok r, 1, 0⟩ ∧
    retryableIncrement (.err m) second = ⟨second, 2, 1⟩ :=
  ⟨rfl, rfl⟩

/-- C4 counterexample: a two-element reply whose elements are not both
numbers is not rejected: a boolean `false` first element is coerced to a
hit count of 0, and string elements are coerced through base-10 parsing. -/
theorem two_element_reply_never_rejected :
    parseScriptResponse 1000 (.arr [Data.bool false, Data.num 100]) =
      Except.ok ⟨some 0, some 1100⟩ ∧
    parseScriptResponse 1000 (.arr [Data.str "7", Data.str "250"]) =
      Except.ok ⟨some 7, some 1250⟩ := by
  decide

/-- C4 (amended): a reply that is not an array, or not of length two, fails
with a typed validation error; but any two-element reply parses
successfully regardless of its element types — a boolean `false` first
element is coerced to a hit count of 0 and other non-numeric elements are
coerced through JavaScript base-10 integer parsing. -/
theorem reply_shape_validation_and_coercion (now : Int) (d r0 r1 : Data)
    (xs : List Data) (hlen : xs.length ≠ 2) :
    parseScriptResponse now (.scalar d) =
      Except.error (.typeError "Expected result to be array of values") ∧
    parseScriptResponse now (.arr xs) =
      Except.error (.jsError ("Expected 2 replies, got " ++ toString xs.length)) ∧
    (∃ info, parseScriptResponse now (.arr [r0, r1]) = Except.ok info) ∧
    (∃ rt, parseScriptResponse now (.arr [Data.bool false, r1]) =
      Except.ok ⟨some 0, rt⟩) := by
  refine ⟨rfl, ?_, ⟨_, rfl⟩, ⟨_, rfl⟩⟩
  match xs with
  | [] => rfl
  | [_] => rfl
  | [_, _] => exact absurd rfl hlen
  | _ :: _ :: _ :: _ => rfl

/-- Witness for C4 (amended): the empty reply array is rejected with the
typed length error. -/
theorem reply_shape_validation_and_coercion_witness :
    ([] : List Data).length ≠ 2 ∧
    parseScriptResponse 0 (.arr []) =
      Except.error (.jsError "Expected 2 replies, got 0") := by
  refine ⟨by decide, ?_⟩
  have h := (reply_shape_validation_and_coercion 0 (Data.num 0) (Data.num 0)
    (Data.num 0) [] (by decide)).2.1
  simpa using h

/-- C5 counterexample: a successful increment whose script-returned
time-to-live is non-positive (slide-expiry on with a non-positive window
duration against a live key) returns a defined `resetTime` lying in the
past — not an undefined-equivalent. -/
theorem nonpositive_ttl_past_resetTime :
    storeIncrement true (-5) 1000 (some ⟨3, some 50⟩) =
      (none, Except.ok ⟨some 4, some 995⟩) ∧ (995 : Int) < 1000 := by
  decide

/-- C5 (amended): for every successful increment, the returned `resetTime`
is the defined absolute timestamp `now + t` where `t` is exactly the
time-to-live the script returned, including when `t` is non-positive (the
result is then a timestamp in the past, never an undefined-equivalent). -/
theorem resetTime_is_now_plus_script_ttl (flag : Bool) (w now : Int)
    (s : RedisKeyState) :
    ∃ h t, (scriptIncrement flag w s).2 = [Data.num h, Data.num t] ∧
      (storeIncrement flag w now s).2 = Except.ok ⟨some h, some (now + t)⟩ := by
  by_cases hc : pttl s ≤ 0
  · exact ⟨1, w, by simp [scriptIncrement, hc],
      by simp [storeIncrement, scriptIncrement, hc, parse_two_nums]⟩
  · cases flag with
    | false =>
      exact ⟨(redisIncr s).2, pttl s, by simp [scriptIncrement, hc],
        by simp [storeIncrement, scriptIncrement, hc, parse_two_nums]⟩
    | true =>
      exact ⟨(redisIncr s).2, w, by simp [scriptIncrement, hc],
        by simp [storeIncrement, scriptIncrement, hc, parse_two_nums]⟩

/-- C6: against a live (positive time-to-live) key, an increment with
`resetExpiryOnChange = false` changes only the stored count and leaves the
time-to-live untouched; with `resetExpiryOnChange = true` it resets the
time-to-live to the full window duration. In particular a second increment
after a first one leaves the time-to-live exactly as the first set it. -/
theorem reset_expiry_on_change_ttl_behaviour (w v t : Int) (ht : 0 < t)
    (hw : 0 < w) :
    scriptIncrement false w (some ⟨v, some t⟩) =
      (some ⟨v + 1, some t⟩, [Data.num (v + 1), Data.num t]) ∧
    scriptIncrement true w (some ⟨v, some t⟩) =
      (some ⟨v + 1, some w⟩, [Data.num (v + 1), Data.num w]) ∧
    (scriptIncrement false w (scriptIncrement false w none).1).1 =
      some ⟨2, some w⟩ := by
  have htnot : ¬ t ≤ 0 := not_le.mpr ht
  have hwnot : ¬ w ≤ 0 := not_le.mpr hw
  refine ⟨?_, ?_, ?_⟩
  · simp [scriptIncrement, pttl, redisIncr, htnot]
  · simp [scriptIncrement, pttl, redisIncr, redisPexpire, htnot, hwnot]
  · simp [scriptIncrement, pttl, redisSet, redisIncr, hwnot]

/-- Witness for C6: `windowMs = 10`, a live key with value 1 and 7 ms
remaining. -/
theorem reset_expiry_on_change_ttl_behaviour_witness :
    scriptIncrement false 10 (some ⟨1, some 7⟩) =
      (some ⟨2, some 7⟩, [Data.num 2, Data.num 7]) := by
  have h := (reset_expiry_on_change_ttl_behaviour 10 1 7 (by decide) (by decide)).1
  simpa using h

/-- C7: with no elapsed time, increment, increment, decrement, increment on
the same key yields `totalHits = 2` on the final increment; `decrement`
issues exactly the one raw command `DECR <prefixed key>` and never touches
the key's expiry. -/
theorem decrement_is_inverse_on_counter (flag : Bool) (w now : Int)
    (p k : String) (hw : 0 < w) :
    (storeIncrement flag w now
        (storeDecrement p k
          (scriptIncrement flag w (scriptIncrement flag w none).1).1).2).2 =
      Except.ok ⟨some 2, some (now + w)⟩ ∧
    (∀ s : RedisKeyState,
      ((storeDecrement p k s).2).bind Entry.expiry = s.bind Entry.expiry) ∧
    (∀ s : RedisKeyState, (storeDecrement p k s).1 = [["DECR", p ++ k]]) := by
  have hwnot : ¬ w ≤ 0 := not_le.mpr hw
  refine ⟨?_, ?_, ?_⟩
  · cases flag with
    | false =>
      simp [storeIncrement, scriptIncrement, pttl, redisSet, redisIncr,
        storeDecrement, redisDecr, hwnot, parse_two_nums]
    | true =>
      simp [storeIncrement, scriptIncrement, pttl, redisSet, redisIncr,
        redisPexpire, storeDecrement, redisDecr, hwnot, parse_two_nums]
  · intro s
    cases s <;> rfl
  · intro s
    rfl

/-- Witness for C7: the concrete sequence with `windowMs = 10` and the
default key text. -/
theorem decrement_is_inverse_on_counter_witness :
    (storeIncrement false 10 0
        (storeDecrement "rl:" "k"
          (scriptIncrement false 10 (scriptIncrement false 10 none).1).1).2).2 =
      Except.ok ⟨some 2, some 10⟩ := by
  have h := (decrement_is_inverse_on_counter false 10 0 "rl:" "k" (by decide)).1
  simpa using h

/-- C8: `resetKey` issues exactly the one raw command `DEL <prefixed key>`,
is idempotent (deleting an absent key succeeds and changes nothing), and an
increment performed after it behaves exactly as on a key that never
existed, returning `totalHits = 1`. -/
theorem resetKey_deletes_and_restarts_window (flag : Bool) (w now : Int)
    (p k : String) (s : RedisKeyState) :
    (storeResetKey p k s).1 = [["DEL", p ++ k]] ∧
    (storeResetKey p k (storeResetKey p k s).2).2 = (storeResetKey p k s).2 ∧
    (storeResetKey p k none).2 = none ∧
    storeIncrement flag w now (storeResetKey p k s).2 =
      storeIncrement flag w now none ∧
    (storeIncrement flag w now (storeResetKey p k s).2).2 =
      Except.ok ⟨some 1, some (now + w)⟩ := by
  refine ⟨rfl, rfl, rfl, rfl, ?_⟩
  simp [storeIncrement, scriptIncrement, storeResetKey, redisDel, pttl,
    redisSet, parse_two_nums]

/-- C9: after two increments on a fresh key, `get` returns
`totalHits = 2` with a defined `resetTime`, mutates nothing (the read-only
script returns the state unchanged for every key state), and a subsequent
increment returns 3, not 4. `get` parses its reply with the very same
`parseScriptResponse` as `increment`. -/
theorem get_is_readonly_and_consistent (flag : Bool) (w now1 now2 : Int)
    (hw : 0 < w) :
    scriptGet (scriptIncrement flag w (scriptIncrement flag w none).1).1 =
      ((scriptIncrement flag w (scriptIncrement flag w none).1).1,
        [Data.str "2", Data.num w]) ∧
    storeGet now1 (scriptIncrement flag w (scriptIncrement flag w none).1).1 =
      ((scriptIncrement flag w (scriptIncrement flag w none).1).1,
        Except.ok ⟨some 2, some (now1 + w)⟩) ∧
    (storeIncrement flag w now2
        (scriptIncrement flag w (scriptIncrement flag w none).1).1).2 =
      Except.ok ⟨some 3, some (now2 + w)⟩ ∧
    (∀ s : RedisKeyState, (scriptGet s).1 = s) := by
  have hwnot : ¬ w ≤ 0 := not_le.mpr hw
  have h2 : (scriptIncrement flag w (scriptIncrement flag w none).1).1 =
      some ⟨2, some w⟩ := by
    cases flag with
    | false => simp [scriptIncrement, pttl, redisSet, redisIncr, hwnot]
    | true => simp [scriptIncrement, pttl, redisSet, redisIncr, redisPexpire, hwnot]
  have hparse : jsParseInt10 "2" = some 2 := by decide
  refine ⟨?_, ?_, ?_, ?_⟩
  · rw [h2]; simp [scriptGet, redisGet, pttl]; rfl
  · rw [h2]; simp [storeGet, scriptGet, redisGet, pttl, parse_str_num]
    simpa using hparse
  · rw [h2]
    cases flag with
    | false =>
      simp [storeIncrement, scriptIncrement, pttl, redisIncr, hwnot, parse_two_nums]
    | true =>
      simp [storeIncrement, scriptIncrement, pttl, redisIncr, redisPexpire,
        hwnot, parse_two_nums]
  · intro s
    rfl

/-- Witness for C9: the concrete scenario with `windowMs = 10`. -/
theorem get_is_readonly_and_consistent_witness :
    storeGet 5 (scriptIncrement false 10 (scriptIncrement false 10 none).1).1 =
      ((scriptIncrement false 10 (scriptIncrement false 10 none).1).1,
        Except.ok ⟨some 2, some 15⟩) := by
  have h := (get_is_readonly_and_consistent false 10 5 0 (by decide)).2.1
  simpa using h

/-- C10: the constructor rejects a non-object options value, rejects an
options object carrying both or neither of `sendCommand` and
`sendCommandCluster`, and succeeds when exactly one is supplied — in which
case every subsequent command is sent through that one supplied function
(a plain `sendCommand` is wrapped to receive just the raw command). -/
theorem constructor_option_validation (f : SendFn) (g : SendClusterFn)
    (p : Option String) (r : Option Bool) :
    redisStoreConstructor .notAnObject = .error .optionsObjectRequired ∧
    redisStoreConstructor (.object ⟨some f, some g, p, r⟩) =
      .error .sendCommandXorRequired ∧
    redisStoreConstructor (.object ⟨none, none, p, r⟩) =
      .error .sendCommandXorRequired ∧
    (∃ st : StoreConfig,
      redisStoreConstructor (.object ⟨some f, none, p, r⟩) = .ok st ∧
      ∀ d : SendCommandClusterDetails, st.sendCommand d = f d.command) ∧
    (∃ st : StoreConfig,
      redisStoreConstructor (.object ⟨none, some g, p, r⟩) = .ok st ∧
      ∀ d : SendCommandClusterDetails, st.sendCommand d = g d) :=
  ⟨rfl, rfl, rfl, ⟨_, rfl, fun _ => rfl⟩, ⟨_, rfl, fun _ => rfl⟩⟩

end RateLimitRedis
